import Mathlib

/-!
Shallow embedding of `simulate-circuit` (`src/components.py`): the Circuit
state engine, the ObservableAttribute notification cell, and the Ohmmeter /
Ohmmeter2 derived instruments, together with theorems settling the frozen
claims about them.

Python floats are modelled by `PyFloat`: exact rationals for finite values
plus the special values `inf`, `neginf` and `nan` produced by float
arithmetic.  Operations that can raise `ZeroDivisionError` (true division by
an exact zero) return `Except`.
-/

namespace SimCircuit

/-- Errors a Python-level operation of this program can raise: division by
    zero, attribute errors, and the two `assert` failures of
    `Circuit.update_state` (each assertion message names the violated field
    and the current time step, which the payload records). -/
inductive PyErr : Type
  | zeroDivision : PyErr
  | attributeError : PyErr
  | assertR1 : ℕ → PyErr
  | assertR2 : ℕ → PyErr
deriving DecidableEq

/-- A Python float: a finite value (kept exact as a rational), an infinity,
    or NaN. -/
inductive PyFloat : Type
  | fin : ℚ → PyFloat
  | inf : PyFloat
  | neginf : PyFloat
  | nan : PyFloat
deriving DecidableEq

/-- Python float addition (`x + y`), NaN-propagating; `inf + (-inf)` is NaN. -/
def pyAdd : PyFloat → PyFloat → PyFloat
  | .nan, _ => .nan
  | .fin _, .nan => .nan
  | .inf, .nan => .nan
  | .neginf, .nan => .nan
  | .fin a, .fin b => .fin (a + b)
  | .fin _, .inf => .inf
  | .fin _, .neginf => .neginf
  | .inf, .fin _ => .inf
  | .inf, .inf => .inf
  | .inf, .neginf => .nan
  | .neginf, .fin _ => .neginf
  | .neginf, .inf => .nan
  | .neginf, .neginf => .neginf

/-- Python float multiplication (`x * y`), NaN-propagating; `0 * inf` is NaN. -/
def pyMul : PyFloat → PyFloat → PyFloat
  | .nan, _ => .nan
  | .fin _, .nan => .nan
  | .inf, .nan => .nan
  | .neginf, .nan => .nan
  | .fin a, .fin b => .fin (a * b)
  | .fin a, .inf => if 0 < a then .inf else if a < 0 then .neginf else .nan
  | .fin a, .neginf => if 0 < a then .neginf else if a < 0 then .inf else .nan
  | .inf, .fin a => if 0 < a then .inf else if a < 0 then .neginf else .nan
  | .neginf, .fin a => if 0 < a then .neginf else if a < 0 then .inf else .nan
  | .inf, .inf => .inf
  | .inf, .neginf => .neginf
  | .neginf, .inf => .neginf
  | .neginf, .neginf => .inf

/-- Python float true division (`x / y`).  Division by an exact zero raises
    `ZeroDivisionError` (also for an infinite or NaN numerator, as in
    CPython); `inf / inf` is NaN, finite over infinite is `0`. -/
def pyDiv : PyFloat → PyFloat → Except PyErr PyFloat
  | .nan, .fin b => if b = 0 then .error .zeroDivision else .ok .nan
  | .nan, .inf => .ok .nan
  | .nan, .neginf => .ok .nan
  | .nan, .nan => .ok .nan
  | .fin _, .nan => .ok .nan
  | .inf, .nan => .ok .nan
  | .neginf, .nan => .ok .nan
  | .fin a, .fin b => if b = 0 then .error .zeroDivision else .ok (.fin (a / b))
  | .fin _, .inf => .ok (.fin 0)
  | .fin _, .neginf => .ok (.fin 0)
  | .inf, .fin b =>
      if b = 0 then .error .zeroDivision else if 0 < b then .ok .inf else .ok .neginf
  | .neginf, .fin b =>
      if b = 0 then .error .zeroDivision else if 0 < b then .ok .neginf else .ok .inf
  | .inf, .inf => .ok .nan
  | .inf, .neginf => .ok .nan
  | .neginf, .inf => .ok .nan
  | .neginf, .neginf => .ok .nan

/-- The `Circuit` object of `components.py`.  `current_time_step` is a plain
    integer attribute there (set to `0` in `__init__`), not an
    `ObservableAttribute`. -/
structure Circuit : Type where
  init_R1 : ℚ
  init_R2 : ℚ
  RL : ℚ
  Vs : ℚ
  R1 : ℚ
  R2 : ℚ
  V_L : PyFloat
  current_time_step : ℕ
deriving DecidableEq

/-- Constructor `Circuit.__init__(init_R1, init_R2, RL, Vs)`: `R1`/`R2` start at their
    initial values, `V_L = 0`, `current_time_step = 0`. -/
def Circuit.mk' (a b RL Vs : ℚ) : Circuit :=
  ⟨a, b, RL, Vs, a, b, PyFloat.fin 0, 0⟩

/-- Method `Circuit.parallel_R`: `(R2 * RL) / (R2 + RL)`, with the
    `ZeroDivisionError` handler substituting `float('inf')` when
    `R2 + RL = 0`. -/
def Circuit.parallel_R (c : Circuit) : PyFloat :=
  if c.R2 + c.RL = 0 then PyFloat.inf
  else PyFloat.fin (c.R2 * c.RL / (c.R2 + c.RL))

/-- The state of the circuit object immediately after the FIRST statement of
    `Circuit.update_state` (`self.current_time_step = time_step`): the time
    step is already written while `R1`, `R2` and `V_L` still hold the
    previous tick's values. -/
def Circuit.update_state_stage1 (c : Circuit) (t : ℕ) : Circuit :=
  { c with current_time_step := t }

/-- Method `Circuit.update_state(time_step)`, transcribed statement by statement:
    assign `current_time_step`; assign `R1 = init_R1 + 10*t` and
    `R2 = init_R2 - 10*t`; assert `R1 >= 0` then `R2 >= 0` (an
    `AssertionError` naming the field and the time step); compute
    `R = parallel_R()` and `V_L = Vs * (R / (R1 + R))` with Python float
    semantics. -/
def Circuit.update_state (c : Circuit) (t : ℕ) : Except PyErr Circuit :=
  let c1 := Circuit.update_state_stage1 c t
  let c2 := { c1 with R1 := c1.init_R1 + 10 * (t : ℚ), R2 := c1.init_R2 - 10 * (t : ℚ) }
  if c2.R1 < (0 : ℚ) then Except.error (PyErr.assertR1 t)
  else if c2.R2 < (0 : ℚ) then Except.error (PyErr.assertR2 t)
  else
    let R := c2.parallel_R
    match pyDiv R (pyAdd (PyFloat.fin c2.R1) R) with
    | Except.error e => Except.error e
    | Except.ok q => Except.ok { c2 with V_L := pyMul (PyFloat.fin c2.Vs) q }

/-- The tick sequence of `Circuit.start`: `range(0, 10001, 100)`,
    i.e. `0, 100, …, 10000` (101 ticks). -/
def Circuit.start_ticks : List ℕ := List.range' 0 101 100

/-- The sequence of `V_L` values produced by running `update_state` over a
    list of ticks from a given circuit state (the body of `Circuit.start`,
    with the value of `V_L` after each tick collected); an exception aborts
    the run. -/
def runVL : Circuit → List ℕ → Except PyErr (List PyFloat)
  | _, [] => Except.ok []
  | c, t :: ts =>
    match c.update_state t with
    | Except.error e => Except.error e
    | Except.ok c' =>
      match runVL c' ts with
      | Except.error e => Except.error e
      | Except.ok vls => Except.ok (c'.V_L :: vls)

/-- Method `Circuit.reset`, transcribed statement by statement: `self.R1` and
    `self.R2` are restored to the initial values, and then
    `self.current_time_step.value = 0` raises `AttributeError`, because
    `current_time_step` is a plain integer in `components.py` (the line is a
    leftover from the `simulate_circuit_2.py` variant where it is an
    `ObservableAttribute`).  The error payload carries the state of the
    object at the moment of the raise. -/
def Circuit.reset (c : Circuit) : Except (PyErr × Circuit) Circuit :=
  Except.error (PyErr.attributeError, { c with R1 := c.init_R1, R2 := c.init_R2 })

/-- The `ObservableAttribute` cell of `components.py`: a stored value
    (`none` models Python `None`, the constructor default) and an ordered
    list of registered observers.  Observers are modelled by opaque
    identifiers of type `ι`; an invocation is recorded by its identifier, so
    a run of invocations is a `List ι`. -/
structure ObservableAttribute (α : Type) (ι : Type) : Type where
  _value : Option α
  _observers : List ι
deriving DecidableEq

/-- Method `ObservableAttribute.notify_observers`: calls every observer in list
    order with no arguments; modelled as the trace of invoked observer
    identifiers. -/
def ObservableAttribute.notify_observers {α ι : Type} (o : ObservableAttribute α ι) :
    List ι :=
  o._observers

/-- Method `ObservableAttribute.register_observer`: appends to the observer list
    (no de-duplication). -/
def ObservableAttribute.register_observer {α ι : Type} (o : ObservableAttribute α ι)
    (ob : ι) : ObservableAttribute α ι :=
  { o with _observers := o._observers ++ [ob] }

/-- The `value` property setter: `if new_value != self._value:` store the
    new value and call `notify_observers`, otherwise do nothing.  Returns
    the updated cell together with the trace of observer invocations. -/
def ObservableAttribute.set {α ι : Type} [DecidableEq α] (o : ObservableAttribute α ι)
    (new_value : Option α) : ObservableAttribute α ι × List ι :=
  if new_value = o._value then (o, [])
  else
    ({ o with _value := new_value },
      ObservableAttribute.notify_observers { o with _value := new_value })

/-- Python truthiness of an upstream reading: `None` and `0` are falsy,
    every other number is truthy (this is the `if V and I:` test of
    `Ohmmeter.update_reading`). -/
def truthy : Option ℚ → Bool
  | none => false
  | some x => decide (x ≠ 0)

/-- The state of an `Ohmmeter` that matters to its behaviour: the values of
    the two upstream `ObservableAttribute`s it observes
    (`voltmeter.current_reading.value` and `ammeter.current_reading.value`),
    its own `current_reading` (a plain attribute, `None` initially), and the
    `start_reporting` readiness flag. -/
structure Ohm : Type where
  V : Option ℚ
  I : Option ℚ
  current_reading : Option ℚ
  start_reporting : Bool
deriving DecidableEq

/-- Method `Ohmmeter.update_reading`: read both upstream values; `if V and I:`
    store `1e3 * (V / I)` as the current reading and set `start_reporting`;
    otherwise change nothing. -/
def Ohm.update_reading (s : Ohm) : Ohm :=
  if truthy s.V && truthy s.I then
    { s with current_reading := some (1000 * (s.V.getD 0 / s.I.getD 0)),
             start_reporting := true }
  else s

/-- Events that reach an ohmmeter during a run: the voltmeter's observable
    being assigned a value, the ammeter's observable being assigned a value,
    or the ohmmeter's own `reset()` being called. -/
inductive OEv : Type
  | publishV : Option ℚ → OEv
  | publishI : Option ℚ → OEv
  | resetO : OEv
deriving DecidableEq

/-- One event acting on an `Ohmmeter`.  A publication goes through the
    upstream `ObservableAttribute` value setter: if the published value
    equals the stored one nothing happens (no notification); otherwise the
    value is stored and the registered observer `update_reading` runs
    synchronously.  `Ohmmeter.reset` only executes `self.readings = []`,
    assigning a list attribute that nothing else uses: it touches neither
    the upstream values, nor `current_reading`, nor `start_reporting`. -/
def Ohm.step (s : Ohm) : OEv → Ohm
  | .publishV v => if v = s.V then s else Ohm.update_reading { s with V := v }
  | .publishI v => if v = s.I then s else Ohm.update_reading { s with I := v }
  | .resetO => s

/-- An `Ohmmeter` as constructed: both upstream observables hold `None`,
    `current_reading = None`, `start_reporting = False`. -/
def Ohm.start : Ohm := ⟨none, none, none, false⟩

/-- The ohmmeter state after a sequence of events, starting from the
    freshly-constructed state. -/
def Ohm.run (evs : List OEv) : Ohm := evs.foldl Ohm.step Ohm.start

/-- The state of an `Ohmmeter2` (the rolling variant): as `Ohm`, plus the
    append-only `past_readings` history of `(V, I)` pairs. -/
structure Ohm2 : Type where
  V : Option ℚ
  I : Option ℚ
  current_reading : Option ℚ
  start_reporting : Bool
  past_readings : List (ℚ × ℚ)
deriving DecidableEq

/-- Method `Ohmmeter2.update_reading`: like `Ohmmeter.update_reading`, and in the
    truthy branch additionally appends the `(V, I)` pair to
    `past_readings`. -/
def Ohm2.update_reading (s : Ohm2) : Ohm2 :=
  if truthy s.V && truthy s.I then
    { s with current_reading := some (1000 * (s.V.getD 0 / s.I.getD 0)),
             start_reporting := true,
             past_readings := s.past_readings ++ [(s.V.getD 0, s.I.getD 0)] }
  else s

/-- One event acting on an `Ohmmeter2`; the wiring is the same as for
    `Ohm.step` (`Ohmmeter2.reset` likewise only assigns the unused
    `readings` attribute). -/
def Ohm2.step (s : Ohm2) : OEv → Ohm2
  | .publishV v => if v = s.V then s else Ohm2.update_reading { s with V := v }
  | .publishI v => if v = s.I then s else Ohm2.update_reading { s with I := v }
  | .resetO => s

/-- An `Ohmmeter2` as constructed: upstream values `None`, no reading, flag
    down, empty history. -/
def Ohm2.start : Ohm2 := ⟨none, none, none, false, []⟩

/-- The rolling ohmmeter state after a sequence of events from the
    freshly-constructed state. -/
def Ohm2.run (evs : List OEv) : Ohm2 := evs.foldl Ohm2.step Ohm2.start

/-- Python `l[-k:]`: the trailing `k` elements of a list (the whole list when
    fewer than `k` exist). -/
def lastK {α : Type} (k : ℕ) (l : List α) : List α := l.drop (l.length - k)

/-- Arithmetic mean of a list of rationals, as `sum / len` (the guard sites
    in `Ohmmeter2.report` ensure the length is nonzero before this is
    evaluated). -/
def mean (l : List ℚ) : ℚ := l.sum / (l.length : ℚ)

/-- The computation of one `Ohmmeter2.report` loop body once
    `start_reporting` holds, transcribed from the code: take the last 10
    pairs and average their voltages (`sum_V / N` raises `ZeroDivisionError`
    when `N = 0`), take the last 6 pairs and average their currents
    (likewise for `M = 0`), then `rolling_R = 1e3 * (average_V / average_I)`
    (raising `ZeroDivisionError` when `average_I = 0`).  There is no
    exception handler anywhere in `Ohmmeter2.report`. -/
def Ohm2.reportValue (past : List (ℚ × ℚ)) : Except PyErr ℚ :=
  let vs := (lastK 10 past).map Prod.fst
  let cs := (lastK 6 past).map Prod.snd
  if vs.length = 0 then Except.error PyErr.zeroDivision
  else if cs.length = 0 then Except.error PyErr.zeroDivision
  else
    let average_V := vs.sum / (vs.length : ℚ)
    let average_I := cs.sum / (cs.length : ℚ)
    if average_I = 0 then Except.error PyErr.zeroDivision
    else Except.ok (1000 * (average_V / average_I))

/-- One iteration of the `Ohmmeter2.report` loop: when `start_reporting` is
    false the tick does nothing (`ok none`); when it is true the rolling
    value is computed, and any `ZeroDivisionError` it raises propagates out
    of the loop (there is no handler in the code). -/
def Ohm2.report_tick (s : Ohm2) : Except PyErr (Option ℚ) :=
  if s.start_reporting then
    match Ohm2.reportValue s.past_readings with
    | Except.error e => Except.error e
    | Except.ok r => Except.ok (some r)
  else Except.ok none

deriving instance DecidableEq for Except

/-- Python `<` on floats: NaN compares false with everything, `-inf` is below
    every finite value and `inf`, finite values compare as rationals. -/
def pyLtB : PyFloat → PyFloat → Bool
  | .fin a, .fin b => decide (a < b)
  | .fin _, .inf => true
  | .neginf, .fin _ => true
  | .neginf, .inf => true
  | _, _ => false

/-- Whether a list of Python floats is strictly decreasing from each element
    to the next. -/
def strictlyDecreasing : List PyFloat → Bool
  | a :: b :: rest => pyLtB b a && strictlyDecreasing (b :: rest)
  | _ => true

/-- The end-to-end configuration of `simulation_app.py`:
    `Circuit(init_R1=0, init_R2=100000)` with the default `RL=30000`,
    `Vs=10`. -/
def c9circuit : Circuit := Circuit.mk' 0 100000 30000 10

/-- The sequence of `V_L` values produced by the 101 ticks of
    `Circuit.start` on the `simulation_app.py` configuration. -/
def c9vls : List PyFloat :=
  match runVL c9circuit Circuit.start_ticks with
  | Except.ok l => l
  | Except.error _ => []

/-- The circuit state after `update_state(100)` on the freshly constructed
    `simulation_app.py` configuration. -/
def c4after : Circuit :=
  match c9circuit.update_state 100 with
  | Except.ok c => c
  | Except.error _ => Circuit.mk' 0 0 0 0

/-- A configuration with `R2 + RL = 0` while both resistances stay
    non-negative: `Circuit(init_R1=5, init_R2=0, RL=0, Vs=10)`. -/
def c5circuit : Circuit := Circuit.mk' 5 0 0 10

/-- The circuit state after `update_state(0)` on `c5circuit`. -/
def c5after : Circuit :=
  match c5circuit.update_state 0 with
  | Except.ok c => c
  | Except.error _ => Circuit.mk' 0 0 0 0

/-- Twelve `(V, I)` sample pairs whose voltage stream is `1, …, 12` and
    whose current stream is `1, …, 12` (the spec's rolling-window example
    sizes). -/
def past12 : List (ℚ × ℚ) :=
  [(1, 1), (2, 2), (3, 3), (4, 4), (5, 5), (6, 6), (7, 7), (8, 8), (9, 9),
   (10, 10), (11, 11), (12, 12)]

/-! ## Theorems -/

/-- C2: For every Observable Value and every assignment via the value
    setter: if the new value equals the stored value, no listener is invoked
    and the stored value (and observer list) is unchanged; if it differs,
    the new value is stored and every registered listener is invoked exactly
    once, in registration order. -/
theorem observable_set_notify_exactly_once {α ι : Type} [DecidableEq α]
    [DecidableEq ι] (o : ObservableAttribute α ι) (v : Option α) :
    (v = o._value → o.set v = (o, [])) ∧
    (v ≠ o._value →
      (o.set v).1._value = v ∧ (o.set v).1._observers = o._observers ∧
      (o.set v).2 = o._observers ∧
      ∀ ob : ι, ((o.set v).2.count ob = o._observers.count ob)) := by
  constructor
  · intro h
    simp [ObservableAttribute.set, h]
  · intro h
    simp [ObservableAttribute.set, h, ObservableAttribute.notify_observers]

/-- Witness for C2 at a concrete cell: storing a different value fires both
    registered listeners in order; re-storing the held value is a no-op with
    no notification. -/
theorem observable_set_notify_exactly_once_witness :
    ((⟨some 1, [0, 1]⟩ : ObservableAttribute ℚ ℕ).set (some 2)).2 = [0, 1] ∧
    ((⟨some 1, [0, 1]⟩ : ObservableAttribute ℚ ℕ).set (some 1)) =
      (⟨some 1, [0, 1]⟩, []) :=
  ⟨((observable_set_notify_exactly_once (⟨some 1, [0, 1]⟩ : ObservableAttribute ℚ ℕ)
        (some 2)).2 (of_decide_eq_false (by with_unfolding_all rfl))).2.2.1,
    (observable_set_notify_exactly_once (⟨some 1, [0, 1]⟩ : ObservableAttribute ℚ ℕ)
        (some 1)).1 rfl⟩

/-- C8 (code bug): `Circuit.reset` restores `R1` and `R2` to their initial
    values but then raises `AttributeError` on
    `self.current_time_step.value = 0` (the time-step attribute is a plain
    integer in `components.py`), leaving the time step unchanged instead of
    setting it to 0. -/
theorem reset_raises_attribute_error (c : Circuit) :
    c.reset =
      Except.error (PyErr.attributeError,
        { c with R1 := c.init_R1, R2 := c.init_R2 }) ∧
    ({ c with R1 := c.init_R1, R2 := c.init_R2 }).current_time_step =
      c.current_time_step :=
  ⟨rfl, rfl⟩

/-- C7 (code bug): a reachable `Ohmmeter2` state — produced by publishing
    V = 1, I = −1, then I = 1, so the trailing current mean is 0 — makes the
    report-tick computation raise `ZeroDivisionError`, and the error
    propagates out of `Ohmmeter2.report` (there is no handler), rather than
    being absorbed as a skipped tick. -/
theorem report_zero_mean_current_uncaught :
    (Ohm2.run [OEv.publishV (some 1), OEv.publishI (some (-1)),
        OEv.publishI (some 1)]).start_reporting = true ∧
    (Ohm2.run [OEv.publishV (some 1), OEv.publishI (some (-1)),
        OEv.publishI (some 1)]).past_readings = [(1, -1), (1, 1)] ∧
    Ohm2.report_tick (Ohm2.run [OEv.publishV (some 1), OEv.publishI (some (-1)),
        OEv.publishI (some 1)]) = Except.error PyErr.zeroDivision :=
  ⟨by with_unfolding_all rfl, by with_unfolding_all rfl, by with_unfolding_all rfl⟩

/-- C9: on the end-to-end configuration (`R1₀ = 0`, `R2₀ = 100000`,
    `RL = 30000`, `Vs = 10`, ticks `0, 100, …, 10000`), the run succeeds,
    the first computed `V_L` is exactly `10`, and the per-tick `V_L`
    sequence is strictly decreasing over the whole horizon. -/
theorem end_to_end_VL_monotone :
    runVL c9circuit Circuit.start_ticks = Except.ok c9vls ∧
    c9vls.head? = some (PyFloat.fin 10) ∧
    strictlyDecreasing c9vls = true :=
  ⟨by with_unfolding_all rfl, by with_unfolding_all rfl, by with_unfolding_all rfl⟩

/-- Counterexample to C1 as stated: after the voltmeter publishes 5 and then
    0 and the ammeter publishes 3, both upstream Observable Values have
    produced non-absent values (they currently hold `some 0` and `some 3`),
    yet the readiness flag is still false — the recompute callback's
    `if V and I:` treats the zero reading like an absent one. -/
theorem ohmmeter_readiness_zero_reading_cex :
    (Ohm.run [OEv.publishV (some 5), OEv.publishV (some 0),
        OEv.publishI (some 3)]).V = some 0 ∧
    (Ohm.run [OEv.publishV (some 5), OEv.publishV (some 0),
        OEv.publishI (some 3)]).I = some 3 ∧
    (Ohm.run [OEv.publishV (some 5), OEv.publishV (some 0),
        OEv.publishI (some 3)]).start_reporting = false :=
  ⟨by with_unfolding_all rfl, by with_unfolding_all rfl, by with_unfolding_all rfl⟩

/-- Counterexample to C4 as stated: on the `simulation_app.py` configuration
    at tick 100, the state at the moment the time step is written (the first
    statement of `update_state`, applied here to the state after tick 0)
    still holds the previous tick's `V_L = 10`, while the completed update
    produces a different `V_L` — so the time step is not published last, and
    a synchronous listener triggered at the time-step write would not read
    the fully-updated state. -/
theorem update_state_time_step_not_last_cex :
    Circuit.update_state c9circuit 100 = Except.ok c4after ∧
    (Circuit.update_state_stage1 c9circuit 100).current_time_step = 100 ∧
    (Circuit.update_state_stage1 c9circuit 100).V_L = PyFloat.fin 0 ∧
    c4after.V_L = PyFloat.fin (9900 / 1033) ∧
    PyFloat.fin 0 ≠ PyFloat.fin (9900 / 1033) :=
  ⟨by with_unfolding_all rfl, rfl, rfl, by with_unfolding_all rfl,
    of_decide_eq_false (by with_unfolding_all rfl)⟩

/-- Counterexample to C5 as stated: on `Circuit(init_R1=5, init_R2=0, RL=0,
    Vs=10)` at tick 0 we have `R2 + RL = 0`; the parallel resistance is
    indeed treated as infinite, but `V_L` then evaluates to
    `Vs * (inf / (R1 + inf)) = Vs * nan = NaN` — not to the source voltage
    `Vs = 10` that "the parallel branch carries no current" would give. -/
theorem open_circuit_VL_nan_cex :
    c5circuit.parallel_R = PyFloat.inf ∧
    c5circuit.update_state 0 = Except.ok c5after ∧
    c5after.V_L = PyFloat.nan ∧
    PyFloat.nan ≠ PyFloat.fin c5circuit.Vs :=
  ⟨by with_unfolding_all rfl, by with_unfolding_all rfl,
    by with_unfolding_all rfl, of_decide_eq_false (by with_unfolding_all rfl)⟩

/-- The only error Python float division can raise is `ZeroDivisionError`. -/
theorem pyDiv_error_eq {x y : PyFloat} {e : PyErr}
    (h : pyDiv x y = Except.error e) : e = PyErr.zeroDivision := by
  cases x <;> cases y <;> simp [pyDiv] at h <;>
    first
      | exact h.symm
      | (split at h <;> simp_all)
      | (split at h
         · simp_all
         · split at h <;> simp_all)

/-- C10: the recompute callbacks of both derived instruments are total and
    guard the division: whenever either upstream reading is absent (`None`)
    or equal to zero, the state is left entirely unchanged (in particular
    `current_reading` and `start_reporting`); when both readings are present
    and nonzero, the reading becomes `1000 * (V / I)` with a nonzero
    divisor, the flag is set, and (for the rolling variant) the pair is
    appended. -/
theorem update_reading_truthiness_guard (s : Ohm) (s2 : Ohm2) :
    ((s.V = none ∨ s.V = some 0 ∨ s.I = none ∨ s.I = some 0) →
      Ohm.update_reading s = s) ∧
    (∀ v i : ℚ, s.V = some v → s.I = some i → v ≠ 0 → i ≠ 0 →
      Ohm.update_reading s =
        { s with current_reading := some (1000 * (v / i)),
                 start_reporting := true }) ∧
    ((s2.V = none ∨ s2.V = some 0 ∨ s2.I = none ∨ s2.I = some 0) →
      Ohm2.update_reading s2 = s2) ∧
    (∀ v i : ℚ, s2.V = some v → s2.I = some i → v ≠ 0 → i ≠ 0 →
      Ohm2.update_reading s2 =
        { s2 with current_reading := some (1000 * (v / i)),
                  start_reporting := true,
                  past_readings := s2.past_readings ++ [(v, i)] }) := by
  refine ⟨?_, ?_, ?_, ?_⟩
  · rintro (h | h | h | h) <;> simp [Ohm.update_reading, truthy, h]
  · intro v i hv hi hv0 hi0
    simp [Ohm.update_reading, truthy, hv, hi, hv0, hi0]
  · rintro (h | h | h | h) <;> simp [Ohm2.update_reading, truthy, h]
  · intro v i hv hi hv0 hi0
    simp [Ohm2.update_reading, truthy, hv, hi, hv0, hi0]

/-- Witness for C10: with `V = 0` (present but zero) nothing changes; with
    `V = 4`, `I = 2` the reading becomes `1000 * (4 / 2)` and the flag is
    set. -/
theorem update_reading_truthiness_guard_witness :
    Ohm.update_reading ⟨some 0, some 5, none, false⟩ =
      (⟨some 0, some 5, none, false⟩ : Ohm) ∧
    Ohm.update_reading ⟨some 4, some 2, none, false⟩ =
      (⟨some 4, some 2, some (1000 * (4 / 2)), true⟩ : Ohm) :=
  ⟨(update_reading_truthiness_guard ⟨some 0, some 5, none, false⟩ Ohm2.start).1
      (Or.inr (Or.inl rfl)),
    (update_reading_truthiness_guard ⟨some 4, some 2, none, false⟩ Ohm2.start).2.1
      4 2 rfl rfl (of_decide_eq_false (by with_unfolding_all rfl))
      (of_decide_eq_false (by with_unfolding_all rfl))⟩

/-- C4 (amended): `update_state` writes the time step FIRST, not last — the
    state after its first statement already carries the new time step while
    `R1`, `R2` and `V_L` still hold the previous tick's values, and the
    final state's time step is the one written by that first statement.  (In
    `components.py` the time step is moreover a plain attribute, not an
    Observable Value, so nothing is ever published on it.) -/
theorem update_state_time_step_first (c : Circuit) (t : ℕ) :
    (Circuit.update_state_stage1 c t).current_time_step = t ∧
    (Circuit.update_state_stage1 c t).R1 = c.R1 ∧
    (Circuit.update_state_stage1 c t).R2 = c.R2 ∧
    (Circuit.update_state_stage1 c t).V_L = c.V_L ∧
    (∀ c', c.update_state t = Except.ok c' →
      c'.current_time_step = (Circuit.update_state_stage1 c t).current_time_step) := by
  refine ⟨rfl, rfl, rfl, rfl, ?_⟩
  intro c' h
  simp only [Circuit.update_state, Circuit.update_state_stage1] at h
  split at h
  · exact absurd h (by simp)
  · split at h
    · exact absurd h (by simp)
    · split at h
      · exact absurd h (by simp)
      · simp only [Except.ok.injEq] at h
        subst h
        rfl

/-- Witness for C4: on the `simulation_app.py` configuration at tick 100,
    the completed update's time step equals the one written by the first
    statement. -/
theorem update_state_time_step_first_witness :
    c4after.current_time_step =
      (Circuit.update_state_stage1 c9circuit 100).current_time_step :=
  (update_state_time_step_first c9circuit 100).2.2.2.2 c4after
    (by with_unfolding_all rfl)

/-- C5 (amended): when `R2 + RL = 0` the parallel resistance is treated as
    infinite rather than raising an error, and when `R2 + RL ≠ 0` it equals
    `(R2·RL)/(R2+RL)`; but in the open-circuit case a successful
    `update_state` leaves `V_L = NaN` (from `Vs * (inf / (R1 + inf))`), not
    an "as if the branch carries no current" voltage. -/
theorem parallel_R_open_circuit_policy (c : Circuit) (t : ℕ) :
    (c.R2 + c.RL = 0 → c.parallel_R = PyFloat.inf) ∧
    (c.R2 + c.RL ≠ 0 →
      c.parallel_R = PyFloat.fin (c.R2 * c.RL / (c.R2 + c.RL))) ∧
    (0 ≤ c.init_R1 + 10 * (t : ℚ) → 0 ≤ c.init_R2 - 10 * (t : ℚ) →
      c.init_R2 - 10 * (t : ℚ) + c.RL = 0 →
      c.update_state t =
        Except.ok { c with current_time_step := t,
                           R1 := c.init_R1 + 10 * (t : ℚ),
                           R2 := c.init_R2 - 10 * (t : ℚ),
                           V_L := PyFloat.nan }) := by
  refine ⟨?_, ?_, ?_⟩
  · intro h; simp [Circuit.parallel_R, h]
  · intro h; simp [Circuit.parallel_R, h]
  · intro h1 h2 h0
    have hc1 : ¬(c.init_R1 + 10 * (t : ℚ) < 0) := not_lt.2 h1
    have hc2 : ¬(c.init_R2 - 10 * (t : ℚ) < 0) := not_lt.2 h2
    simp [Circuit.update_state, Circuit.update_state_stage1, Circuit.parallel_R,
      hc1, hc2, h0, pyAdd, pyDiv, pyMul]

/-- Witness for C5 at the concrete open-circuit configuration
    (`init_R1 = 5`, `init_R2 = 0`, `RL = 0`, `Vs = 10`, tick 0). -/
theorem parallel_R_open_circuit_policy_witness :
    c5circuit.update_state 0 =
      Except.ok { c5circuit with current_time_step := 0,
                                 R1 := c5circuit.init_R1 + 10 * ((0 : ℕ) : ℚ),
                                 R2 := c5circuit.init_R2 - 10 * ((0 : ℕ) : ℚ),
                                 V_L := PyFloat.nan } :=
  (parallel_R_open_circuit_policy c5circuit 0).2.2
    (of_decide_eq_true (by with_unfolding_all rfl))
    (of_decide_eq_true (by with_unfolding_all rfl))
    (of_decide_eq_true (by with_unfolding_all rfl))

/-- C6: after the per-tick update computes `R1 = R1₀ + 10t` and
    `R2 = R2₀ − 10t`, a negative `R1` (or a non-negative `R1` with a
    negative `R2`) aborts the tick with an assertion error identifying the
    violated field and the time step; and whenever the configuration keeps
    both closed-form values non-negative on every tick of the horizon, no
    tick of the horizon can produce either assertion error. -/
theorem update_state_assert_nonnegative (c : Circuit) (t : ℕ) :
    (c.init_R1 + 10 * (t : ℚ) < 0 →
      c.update_state t = Except.error (PyErr.assertR1 t)) ∧
    (0 ≤ c.init_R1 + 10 * (t : ℚ) → c.init_R2 - 10 * (t : ℚ) < 0 →
      c.update_state t = Except.error (PyErr.assertR2 t)) ∧
    ((∀ u ∈ Circuit.start_ticks,
        0 ≤ c.init_R1 + 10 * (u : ℚ) ∧ 0 ≤ c.init_R2 - 10 * (u : ℚ)) →
      t ∈ Circuit.start_ticks →
      ∀ u : ℕ, c.update_state t ≠ Except.error (PyErr.assertR1 u) ∧
        c.update_state t ≠ Except.error (PyErr.assertR2 u)) := by
  refine ⟨?_, ?_, ?_⟩
  · intro h
    simp [Circuit.update_state, Circuit.update_state_stage1, h]
  · intro h1 h2
    simp [Circuit.update_state, Circuit.update_state_stage1, not_lt.2 h1, h2]
  · intro hpre ht u
    obtain ⟨hR1, hR2⟩ := hpre t ht
    simp only [Circuit.update_state, Circuit.update_state_stage1,
      if_neg (not_lt.2 hR1), if_neg (not_lt.2 hR2)]
    constructor <;>
      · intro heq
        split at heq
        · next e he =>
            rw [pyDiv_error_eq he] at heq
            simp at heq
        · simp at heq

/-- Witness for C6: a misconfigured run (`init_R1 = −5`) fails its very
    first tick with the `R1` assertion naming tick 0, while the
    `simulation_app.py` configuration satisfies the precondition on every
    tick of the horizon and tick 100 can produce neither assertion error. -/
theorem update_state_assert_nonnegative_witness :
    (Circuit.mk' (-5) 100000 30000 10).update_state 0 =
      Except.error (PyErr.assertR1 0) ∧
    (c9circuit.update_state 100 ≠ Except.error (PyErr.assertR1 100) ∧
      c9circuit.update_state 100 ≠ Except.error (PyErr.assertR2 100)) :=
  ⟨(update_state_assert_nonnegative (Circuit.mk' (-5) 100000 30000 10) 0).1
      (of_decide_eq_true (by with_unfolding_all rfl)),
    (update_state_assert_nonnegative c9circuit 100).2.2
      (of_decide_eq_true (by with_unfolding_all rfl))
      (of_decide_eq_true (by with_unfolding_all rfl)) 100⟩

/-- Taking the trailing `k` elements commutes with mapping over the list. -/
theorem lastK_map {α β : Type} (f : α → β) (k : ℕ) (l : List α) :
    lastK k (l.map f) = (lastK k l).map f := by
  simp [lastK]

/-- A list no longer than the window is returned whole by `lastK`. -/
theorem lastK_of_length_le {α : Type} (k : ℕ) (l : List α) (h : l.length ≤ k) :
    lastK k l = l := by
  simp [lastK, Nat.sub_eq_zero_of_le h]

/-- The trailing window of a nonempty list is nonempty (for a positive
    window size). -/
theorem lastK_length_ne_zero {α : Type} (k : ℕ) (l : List α) (hk : 0 < k)
    (hl : l ≠ []) : (lastK k l).length ≠ 0 := by
  have hp : 0 < l.length := List.length_pos.2 hl
  simp only [lastK, List.length_drop]
  omega

/-- C3: once at least one `(V, I)` pair exists, the rolling report computes
    `1000 · (mean of the trailing 10 voltage samples / mean of the trailing
    6 current samples)` — the two windows taken independently over the same
    pair history — whenever the trailing current mean is nonzero; with fewer
    samples than a window the trailing window is the whole stream; and the
    only possible failure is the zero-mean-current division, never
    insufficient history. -/
theorem rolling_report_windowed_means (past : List (ℚ × ℚ)) (hne : past ≠ []) :
    (mean (lastK 6 (past.map Prod.snd)) ≠ 0 →
      Ohm2.reportValue past =
        Except.ok (1000 * (mean (lastK 10 (past.map Prod.fst)) /
          mean (lastK 6 (past.map Prod.snd))))) ∧
    (past.length ≤ 10 → lastK 10 (past.map Prod.fst) = past.map Prod.fst) ∧
    (past.length ≤ 6 → lastK 6 (past.map Prod.snd) = past.map Prod.snd) ∧
    (∀ e, Ohm2.reportValue past = Except.error e →
      e = PyErr.zeroDivision ∧ mean (lastK 6 (past.map Prod.snd)) = 0) := by
  have hv : ((lastK 10 past).map Prod.fst).length ≠ 0 := by
    rw [List.length_map]
    exact lastK_length_ne_zero 10 past (by norm_num) hne
  have hc : ((lastK 6 past).map Prod.snd).length ≠ 0 := by
    rw [List.length_map]
    exact lastK_length_ne_zero 6 past (by norm_num) hne
  have hvs : lastK 10 (past.map Prod.fst) = (lastK 10 past).map Prod.fst :=
    lastK_map Prod.fst 10 past
  have hcs : lastK 6 (past.map Prod.snd) = (lastK 6 past).map Prod.snd :=
    lastK_map Prod.snd 6 past
  refine ⟨?_, ?_, ?_, ?_⟩
  · intro hmI
    rw [hvs, hcs] at *
    rw [hcs] at hmI
    simp only [Ohm2.reportValue, mean] at hmI ⊢
    rw [if_neg hv, if_neg hc, if_neg hmI]
  · intro h
    rw [hvs, lastK_of_length_le 10 past h]
  · intro h
    rw [hcs, lastK_of_length_le 6 past h]
  · intro e he
    simp only [Ohm2.reportValue] at he
    rw [if_neg hv, if_neg hc] at he
    split at he
    · next h0 =>
        refine ⟨by simpa using he.symm, ?_⟩
        rw [hcs]
        simpa [mean] using h0
    · simp at he

/-- Witness for C3 at the spec's example streams `1, …, 12`: the report is
    `1000 · (mean of samples 3..12 / mean of samples 7..12)`. -/
theorem rolling_report_windowed_means_witness :
    Ohm2.reportValue past12 =
      Except.ok (1000 * (mean (lastK 10 (past12.map Prod.fst)) /
        mean (lastK 6 (past12.map Prod.snd)))) :=
  (rolling_report_windowed_means past12
      (of_decide_eq_false (by with_unfolding_all rfl))).1
    (of_decide_eq_false (by with_unfolding_all rfl))

/-- Running `update_reading` never changes the stored upstream voltage. -/
theorem updateReading_V (s : Ohm) : (Ohm.update_reading s).V = s.V := by
  unfold Ohm.update_reading
  split <;> rfl

/-- Running `update_reading` never changes the stored upstream current. -/
theorem updateReading_I (s : Ohm) : (Ohm.update_reading s).I = s.I := by
  unfold Ohm.update_reading
  split <;> rfl

/-- The readiness flag after `update_reading` is the old flag OR the
    truthiness of both readings. -/
theorem updateReading_flag (s : Ohm) :
    (Ohm.update_reading s).start_reporting =
      ((truthy s.V && truthy s.I) || s.start_reporting) := by
  unfold Ohm.update_reading
  split
  · next h => simp [h]
  · next h => simp [Bool.eq_false_iff.2 h]

/-- One event never lowers the readiness flag. -/
theorem step_flag_mono (s : Ohm) (e : OEv) (h : s.start_reporting = true) :
    (Ohm.step s e).start_reporting = true := by
  cases e with
  | publishV v =>
      simp only [Ohm.step]
      split
      · exact h
      · rw [updateReading_flag]; simp [h]
  | publishI v =>
      simp only [Ohm.step]
      split
      · exact h
      · rw [updateReading_flag]; simp [h]
  | resetO => exact h

/-- A whole event sequence never lowers the readiness flag. -/
theorem foldl_flag_mono (evs : List OEv) :
    ∀ s : Ohm, s.start_reporting = true →
      (List.foldl Ohm.step s evs).start_reporting = true := by
  induction evs with
  | nil => intro s h; exact h
  | cons e rest ih => intro s h; exact ih _ (step_flag_mono s e h)

/-- If an event raises the readiness flag, either it was already up or both
    readings are truthy immediately after the event. -/
theorem step_flag_origin (s : Ohm) (e : OEv)
    (h : (Ohm.step s e).start_reporting = true) :
    s.start_reporting = true ∨
      (truthy (Ohm.step s e).V && truthy (Ohm.step s e).I) = true := by
  cases e with
  | publishV v =>
      simp only [Ohm.step] at h ⊢
      by_cases hv : v = s.V
      · rw [if_pos hv] at h ⊢
        exact Or.inl h
      · rw [if_neg hv] at h ⊢
        rw [updateReading_flag] at h
        rcases Bool.or_eq_true_iff.1 h with h1 | h2
        · right; rwa [updateReading_V, updateReading_I]
        · exact Or.inl h2
  | publishI v =>
      simp only [Ohm.step] at h ⊢
      by_cases hv : v = s.I
      · rw [if_pos hv] at h ⊢
        exact Or.inl h
      · rw [if_neg hv] at h ⊢
        rw [updateReading_flag] at h
        rcases Bool.or_eq_true_iff.1 h with h1 | h2
        · right; rwa [updateReading_V, updateReading_I]
        · exact Or.inl h2
  | resetO => exact Or.inl h

/-- Any state reached by a raising event sequence admits a prefix at whose
    end both readings are truthy (unless the flag was up at the start). -/
theorem foldl_flag_origin (evs : List OEv) :
    ∀ s : Ohm, (List.foldl Ohm.step s evs).start_reporting = true →
      s.start_reporting = true ∨
        ∃ p, p <+: evs ∧
          (truthy (List.foldl Ohm.step s p).V &&
            truthy (List.foldl Ohm.step s p).I) = true := by
  induction evs with
  | nil => intro s h; exact Or.inl h
  | cons e rest ih =>
      intro s h
      rcases ih (Ohm.step s e) h with h1 | ⟨p, hp, hc⟩
      · rcases step_flag_origin s e h1 with h2 | h2
        · exact Or.inl h2
        · refine Or.inr ⟨[e], ⟨rest, rfl⟩, ?_⟩
          simpa using h2
      · refine Or.inr ⟨e :: p, ?_, ?_⟩
        · rcases hp with ⟨t, ht⟩
          exact ⟨t, by rw [List.cons_append, ht]⟩
        · simpa using hc

/-- The "both readings truthy implies flag up" invariant is preserved by
    every event. -/
theorem step_truthy_flag (s : Ohm) (e : OEv)
    (h : (truthy s.V && truthy s.I) = true → s.start_reporting = true)
    (hc : (truthy (Ohm.step s e).V && truthy (Ohm.step s e).I) = true) :
    (Ohm.step s e).start_reporting = true := by
  cases e with
  | publishV v =>
      simp only [Ohm.step] at hc ⊢
      by_cases hv : v = s.V
      · rw [if_pos hv] at hc ⊢
        exact h hc
      · rw [if_neg hv] at hc ⊢
        rw [updateReading_V, updateReading_I] at hc
        rw [updateReading_flag, hc]
        rfl
  | publishI v =>
      simp only [Ohm.step] at hc ⊢
      by_cases hv : v = s.I
      · rw [if_pos hv] at hc ⊢
        exact h hc
      · rw [if_neg hv] at hc ⊢
        rw [updateReading_V, updateReading_I] at hc
        rw [updateReading_flag, hc]
        rfl
  | resetO => exact h hc

/-- The "both readings truthy implies flag up" invariant is preserved by
    every event sequence. -/
theorem foldl_truthy_flag (evs : List OEv) :
    ∀ s : Ohm, ((truthy s.V && truthy s.I) = true → s.start_reporting = true) →
      (truthy (List.foldl Ohm.step s evs).V &&
        truthy (List.foldl Ohm.step s evs).I) = true →
      (List.foldl Ohm.step s evs).start_reporting = true := by
  induction evs with
  | nil => intro s h hc; exact h hc
  | cons e rest ih =>
      intro s h hc
      exact ih (Ohm.step s e) (step_truthy_flag s e h) hc

/-- C1 (amended): the Ohmmeter readiness flag after any event sequence is
    true exactly when some prefix of the sequence ends with both upstream
    readings truthy — non-absent AND nonzero (the `if V and I:` guard treats
    a zero reading like an absent one).  In particular the flag is monotone
    (once true, true at every longer sequence) and no event — including
    `reset`, which only assigns an unused list attribute — lowers it. -/
theorem ohmmeter_readiness_characterization (evs : List OEv) :
    (Ohm.run evs).start_reporting = true ↔
      ∃ p, p <+: evs ∧
        (truthy (Ohm.run p).V && truthy (Ohm.run p).I) = true := by
  constructor
  · intro h
    rcases foldl_flag_origin evs Ohm.start h with h1 | h2
    · exact absurd h1 (by simp [Ohm.start])
    · exact h2
  · rintro ⟨p, ⟨t, ht⟩, hc⟩
    have hflag : (Ohm.run p).start_reporting = true :=
      foldl_truthy_flag p Ohm.start (by simp [Ohm.start, truthy]) hc
    have hrun : Ohm.run evs = List.foldl Ohm.step (Ohm.run p) t := by
      rw [← ht]
      simp [Ohm.run, List.foldl_append]
    rw [hrun]
    exact foldl_flag_mono t _ hflag

end SimCircuit
